import Mathlib

/-!
Verification of the secret-scanning pattern test engine.

This file gives a shallow embedding, in Lean 4, of the parts of the
`secretscanning` Python package that the specification's claims are about:

* `test.py`: the `Pattern` class, `parse_patterns`, `hs_compile`,
  `path_offsets_match`, `pcre_result_match`, the result store `RESULTS`
  and the reconciliation loop of `test_patterns`;
* `patterns.py`: the `Regex`, `Expected`, `Pattern` and `PatternsConfig`
  dataclasses with their `__post_init__` validation;
* `combine.py`: `glob_match` and the include/exclude filtering of `main`.

Bytes are modelled as `List Nat`, Python `int` offsets as `Int`, Python
dictionaries with a fixed key set as structures whose optional keys are
`Option` fields.  The two regex engines (hyperscan and PCRE) are not
modelled themselves: a PCRE match result is an explicit record of the three
captured groups, and the semantic fact tying it to the scanned buffer
(the concatenated groups are an initial segment of the matched slice,
because the compiled regex is exactly the three named groups in sequence
and PCRE `match` anchors at the start of its subject) is taken as a
hypothesis where a theorem needs it.  Compilation success of hyperscan is
an oracle parameter.  Logging and printing are not modelled.
-/

namespace SecretScanning

/-- A byte, as Python manipulates it when indexing a `bytes` object. -/
abbrev Byte := Nat

/-- A Python `bytes` value. -/
abbrev Bytes := List Nat

/-- Python slicing `content[s:e]` for `0 ≤ s ≤ e ≤ len content`
(the only shape the engine uses: hyperscan offsets are non-negative). -/
def pySlice (content : Bytes) (s e : Nat) : Bytes :=
  (content.drop s).take (e - s)

/-- Python `bytes.decode("ascii")`: succeeds exactly on 7-bit bytes,
returning them unchanged (as code points). -/
def asciiDecode (b : Bytes) : Option (List Nat) :=
  if b.all (fun x => x ≤ 0x7F) then some b else none

/-- State of the byte-at-a-time UTF-8 decoding automaton: how many
continuation bytes are still required, the partial code point, the
admissible range for the next continuation byte, and the code points
decoded so far in reverse order. -/
structure Utf8State where
  need : Nat
  acc : Nat
  lo : Nat
  hi : Nat
  out : List Nat
deriving DecidableEq, Repr

/-- One step of strict UTF-8 decoding, per the standard byte-range table
(which is what Python's strict decoder enforces): two-byte leaders
`C2..DF`; three-byte leaders `E0` (second byte `A0..BF`, no overlongs),
`E1..EC`/`EE..EF` (second byte `80..BF`), `ED` (second byte `80..9F`, no
surrogates); four-byte leaders `F0` (second byte `90..BF`), `F1..F3`
(second byte `80..BF`), `F4` (second byte `80..8F`, max `U+10FFFF`);
continuation bytes `80..BF`. -/
def utf8Step (st : Utf8State) (b : Nat) : Option Utf8State :=
  if st.need = 0 then
    if b ≤ 0x7F then some { st with out := b :: st.out }
    else if 0xC2 ≤ b && b ≤ 0xDF then
      some { st with need := 1, acc := b - 0xC0, lo := 0x80, hi := 0xBF }
    else if b = 0xE0 then some { st with need := 2, acc := 0, lo := 0xA0, hi := 0xBF }
    else if b = 0xED then some { st with need := 2, acc := 0xD, lo := 0x80, hi := 0x9F }
    else if 0xE1 ≤ b && b ≤ 0xEF then
      some { st with need := 2, acc := b - 0xE0, lo := 0x80, hi := 0xBF }
    else if b = 0xF0 then some { st with need := 3, acc := 0, lo := 0x90, hi := 0xBF }
    else if b = 0xF4 then some { st with need := 3, acc := 4, lo := 0x80, hi := 0x8F }
    else if 0xF1 ≤ b && b ≤ 0xF3 then
      some { st with need := 3, acc := b - 0xF0, lo := 0x80, hi := 0xBF }
    else none
  else
    if st.lo ≤ b && b ≤ st.hi then
      if st.need = 1 then
        some { st with need := 0, acc := 0, out := (st.acc * 0x40 + (b - 0x80)) :: st.out }
      else
        some { st with need := st.need - 1, acc := st.acc * 0x40 + (b - 0x80), lo := 0x80, hi := 0xBF }
    else none

/-- Run the UTF-8 automaton over a byte list; a dangling incomplete
sequence at the end is an error, as in Python's strict decoder. -/
def utf8Run (st : Utf8State) : Bytes → Option (List Nat)
  | [] => if st.need = 0 then some st.out.reverse else none
  | b :: rest =>
    match utf8Step st b with
    | some st2 => utf8Run st2 rest
    | none => none

/-- Python `bytes.decode("utf-8")` (strict): the decoded code points, or
`none` on any malformed sequence. -/
def utf8Decode (b : Bytes) : Option (List Nat) :=
  utf8Run { need := 0, acc := 0, lo := 0, hi := 0, out := [] } b

/-- The `parts` dictionary built by `pcre_result_match` in `test.py`: the
three captured groups, either all three decoded as UTF-8, or all three
decoded as ASCII, or kept as the `str()` of the raw bytes (the debug
representation). -/
inductive Parts where
  | utf8 (start pattern stop : List Nat)
  | ascii (start pattern stop : List Nat)
  | debug (start pattern stop : Bytes)
deriving DecidableEq, Repr

/-- The `try`/`except UnicodeDecodeError` cascade of `pcre_result_match`
(`test.py` lines 241-255): decode all three groups as UTF-8; if any
fails, decode all three as ASCII; if any fails, fall back to `str()`. -/
def decodeParts (g1 g2 g3 : Bytes) : Parts :=
  match utf8Decode g1, utf8Decode g2, utf8Decode g3 with
  | some a, some b, some c => Parts.utf8 a b c
  | _, _, _ =>
    match asciiDecode g1, asciiDecode g2, asciiDecode g3 with
    | some a, some b, some c => Parts.ascii a b c
    | _, _, _ => Parts.debug g1 g2 g3

/-- An `expected` entry as `test.py` consumes it: a raw YAML dictionary
whose keys are read with `.get`, so any key may be absent (`none`). -/
structure ExpectedDict where
  name : Option String
  start_offset : Option Int
  end_offset : Option Int
deriving DecidableEq, Repr

/-- A pattern as parsed by `test.py` (`Pattern.__init__`): all string
fields are stripped, `None` fields stay `None`, the `expected` entries are
kept as the raw YAML dictionaries.  The source's `end` field is called
`stop` here because `end` is a Lean keyword. -/
structure TPattern where
  name : Option String
  type : Option String
  description : Option String
  start : Option String
  pattern : String
  stop : Option String
  additional_matches : List String
  additional_not_matches : List String
  expected : List ExpectedDict
deriving DecidableEq, Repr

/-- The `file_details` dictionary recorded for a match (`test.py`
lines 272-276): the file name (basename in fixture mode), and the offsets
adjusted inward by the byte lengths of the `start` and `end` captures. -/
structure FileDetails where
  name : String
  start_offset : Int
  end_offset : Int
deriving DecidableEq, Repr

/-- `path_offsets_match` (`test.py` lines 214-219): compare the `name`,
`start_offset` and `end_offset` keys of an expected entry against a
`file_details` record with Python `==` on `.get` results; a missing key
in the expected dictionary (`None`) never equals a present value. -/
def path_offsets_match (first : ExpectedDict) (second : FileDetails) : Bool :=
  first.name == some second.name &&
  first.start_offset == some second.start_offset &&
  first.end_offset == some second.end_offset

/-- The three named capture groups of a successful PCRE match of
`(?P<start>...)(?P<pattern>...)(?P<end>...)` against the hyperscan slice,
as raw bytes. -/
structure PcreMatch where
  gstart : Bytes
  gpattern : Bytes
  gend : Bytes
deriving DecidableEq, Repr

/-- One entry of the `RESULTS` store: `{'file': ..., 'groups': ...}`. -/
structure StoredRec where
  file : FileDetails
  groups : Parts
deriving DecidableEq, Repr

/-- The `additional_match` / `additional_not_match` gate of
`pcre_result_match` (`test.py` lines 257-267): skipped entirely when
`no_additional_matches` is set; otherwise every `additional_match` regex
must match the body capture and no `additional_not_match` regex may.
`rmatch pat subject` is the PCRE oracle for `pcre.compile(pat).match`. -/
def additional_filters_pass (rmatch : String → Bytes → Bool)
    (additional_matches additional_not_matches : List String)
    (body : Bytes) (no_additional_matches : Bool) : Bool :=
  if no_additional_matches then true
  else if !additional_matches.isEmpty &&
      !(additional_matches.all (fun p => rmatch p body)) then false
  else if !additional_not_matches.isEmpty &&
      (additional_not_matches.any (fun p => rmatch p body)) then false
  else true

/-- `pcre_result_match` (`test.py` lines 224-309), as the function from a
PCRE match result to the record appended to the `RESULTS` store (`none`
when nothing is recorded).  `m` is the result of
`pattern.pcre_regex().match(content[start_offset:end_offset])`; `pathName`
is `path.name` in fixture mode and `str(path)` in dry-run mode.  Logging
and the dry-run printing are not modelled; the expected/unexpected log
branch does not affect what is recorded. -/
def pcre_result_match (rmatch : String → Bytes → Bool) (pattern : TPattern)
    (pathName : String) (start_offset end_offset : Nat) (m : Option PcreMatch)
    (write_to_results : Bool) (no_additional_matches : Bool) : Option StoredRec :=
  match m with
  | none => none
  | some pm =>
    let parts := decodeParts pm.gstart pm.gpattern pm.gend
    if additional_filters_pass rmatch pattern.additional_matches
        pattern.additional_not_matches pm.gpattern no_additional_matches then
      let file_details : FileDetails :=
        { name := pathName,
          start_offset := (start_offset : Int) + pm.gstart.length,
          end_offset := (end_offset : Int) - pm.gend.length }
      if write_to_results then some { file := file_details, groups := parts } else none
    else none

/-- The global `RESULTS` store of `test.py`: a dictionary from the
pattern's `name` (which may be `None`) to the list of recorded matches,
in insertion order. -/
abbrev ResultsStore := List (Option String × List StoredRec)

/-- `RESULTS.get(name, [])`. -/
def storeLookup : ResultsStore → Option String → List StoredRec
  | [], _ => []
  | (k, v) :: rest, nm => if k = nm then v else storeLookup rest nm

/-- The append performed under `LOCK` by `pcre_result_match`
(`test.py` lines 293-298): create the key's list if absent, then append. -/
def storeAdd : ResultsStore → Option String → StoredRec → ResultsStore
  | [], nm, r => [(nm, [r])]
  | (k, v) :: rest, nm, r =>
    if k = nm then (k, v ++ [r]) :: rest else (k, v) :: storeAdd rest nm r

/-- The matches recorded while scanning the fixture files of one pattern
directory: each element is the key/record pair appended to `RESULTS` by
one callback invocation. -/
abbrev ScanEvents := List (Option String × StoredRec)

/-- Folding one directory's scan callbacks into the store. -/
def runScanEvents (st : ResultsStore) (evts : ScanEvents) : ResultsStore :=
  evts.foldl (fun acc ev => storeAdd acc ev.1 ev.2) st

/-- The store accumulated by a fixture run's scans: `RESULTS` is reset to
`{}` once on entry (the initial store is discarded) and then only appended
to, with no clearing between pattern-set directories.  Reconciliation
never modifies the store, so this is also the store component of
`test_patterns_loop` after the given directories (see
`test_patterns_loop_fst`). -/
def test_patterns_store (_initialStore : ResultsStore)
    (dirs : List ScanEvents) : ResultsStore :=
  dirs.foldl runScanEvents ([] : ResultsStore)

/-- The reconciliation computed for one pattern by `test_patterns`
(`test.py` lines 370-404): `ok` starts true, is cleared when some expected
entry matches no observed result, and cleared again when some observed
result matches no expected entry. -/
def pattern_reconcile_ok (expected : List ExpectedDict) (results : List StoredRec) : Bool :=
  (expected.all (fun e => results.any (fun r => path_offsets_match e r.file))) &&
  !(results.any (fun r => !(expected.any (fun e => path_offsets_match e r.file))))

/-- The update of the overall `ret` flag of `test_patterns` over the
patterns of one directory: a pattern with a non-empty `expected` list
clears `ret` when its reconciliation fails; a pattern with no `expected`
only logs and leaves `ret` untouched. -/
def test_patterns_ret (patterns : List TPattern) (store : ResultsStore) (ret : Bool) : Bool :=
  patterns.foldl
    (fun acc p =>
      if !p.expected.isEmpty then
        if pattern_reconcile_ok p.expected (storeLookup store p.name) then acc else false
      else acc)
    ret

/-- One processed pattern-set directory of a fixture run: the patterns
parsed from its `patterns.yml`, paired with the matches recorded while
scanning its fixture files. -/
abbrev DirRun := List TPattern × ScanEvents

/-- The per-directory body of `test_patterns` (`test.py` lines 334-414):
for each discovered pattern directory in turn, scan its fixture files
(appending to `RESULTS`) and then immediately reconcile that directory's
patterns against the store *as it stands*, threading `RESULTS` and `ret`
to the next directory. -/
def test_patterns_loop (st : ResultsStore) (ret : Bool) : List DirRun → ResultsStore × Bool
  | [] => (st, ret)
  | (patterns, evts) :: rest =>
    let st2 := runScanEvents st evts
    test_patterns_loop st2 (test_patterns_ret patterns st2 ret) rest

/-- A whole fixture run (`test_patterns`, `test.py` lines 312-420):
`RESULTS` is reset to `{}` and `ret` to `True` once on entry (the initial
store is discarded); then the walk scans and reconciles each pattern-set
directory in turn. -/
def test_patterns_run (_initialStore : ResultsStore) (dirs : List DirRun) :
    ResultsStore × Bool :=
  test_patterns_loop [] true dirs

/-- Python `itertools.zip_longest(labels, regex_bytes)` with the default
`None` fill value. -/
def zipLongest : List (Option String) → List Bytes → List (Option String × Option Bytes)
  | [], ys => ys.map (fun y => (none, some y))
  | x :: xs, [] => (x, none) :: zipLongest xs []
  | x :: xs, y :: ys => (x, some y) :: zipLongest xs ys

/-- The per-pattern fallback loop of `hs_compile` (`test.py`
lines 167-174): compile each regex individually; on the first failure,
log it with its label and `return False` immediately.  Returns the
success flag together with the list of labels reported via `LOG.error`.
A `none` regex (labels longer than regexes) cannot arise from the
repository's call sites, where both lists come from the same pattern
list. -/
def hsCompileFallback (ok1 : Bytes → Bool) :
    List (Option String × Option Bytes) → Bool × List (Option String)
  | [] => (true, [])
  | (label, some r) :: rest =>
    if ok1 r then hsCompileFallback ok1 rest else (false, [label])
  | (_, none) :: rest => hsCompileFallback ok1 rest

/-- `hs_compile` (`test.py` lines 138-176) for a list of already encoded
regexes: an empty list returns `False`; otherwise try the bulk
`db.compile`; on `hyperscan.error`, fall back to per-pattern compilation.
`okBulk` and `ok1` are compile-success oracles for `db.compile` on a list
and on a single regex.  The result is the returned flag paired with the
labels reported during the fallback. -/
def hs_compile (okBulk : List Bytes → Bool) (ok1 : Bytes → Bool)
    (regex : List Bytes) (labels : List (Option String)) : Bool × List (Option String) :=
  if regex.isEmpty then (false, [])
  else if okBulk regex then (true, [])
  else hsCompileFallback ok1 (zipLongest labels regex)

/-- A token of a translated `fnmatch` glob: a literal character, `*`, `?`,
or a (possibly negated) character class given by its member ranges. -/
inductive GlobTok where
  | lit (c : Char)
  | star
  | qmark
  | cls (neg : Bool) (ranges : List (Char × Char))
deriving DecidableEq, Repr

/-- Scan a character class body up to the closing `]`; `none` when the
class is unterminated. -/
def scanClass : List Char → Option (List Char × List Char)
  | [] => none
  | ']' :: rest => some ([], rest)
  | c :: rest => (scanClass rest).map (fun pr => (c :: pr.1, pr.2))

/-- Interpret a class body: `a-b` is a range, anything else is a
singleton (`-` at either edge is literal, as in `fnmatch.translate`). -/
def classRanges : List Char → List (Char × Char)
  | [] => []
  | a :: '-' :: b :: rest => (a, b) :: classRanges rest
  | a :: rest => (a, a) :: classRanges rest

/-- Split a `[`-introduced class following `fnmatch.translate`: an initial
`!` negates; a `]` directly after that is a literal member; `none` when no
closing `]` exists (then the `[` itself is literal). -/
def classSplit (rest : List Char) : Option (Bool × List Char × List Char) :=
  match rest with
  | '!' :: r =>
    (match r with
     | ']' :: r2 => (scanClass r2).map (fun pr => (true, ']' :: pr.1, pr.2))
     | _ => (scanClass r).map (fun pr => (true, pr.1, pr.2)))
  | ']' :: r2 => (scanClass r2).map (fun pr => (false, ']' :: pr.1, pr.2))
  | _ => (scanClass rest).map (fun pr => (false, pr.1, pr.2))

/-- Tokenize a glob pattern, with fuel for termination; each step consumes
at least one input character, so `fuel = length of the input` is always
enough (see `globTokens`). -/
def globTokensAux : Nat → List Char → List GlobTok
  | _, [] => []
  | 0, _ :: _ => []
  | fuel + 1, '*' :: rest => GlobTok.star :: globTokensAux fuel rest
  | fuel + 1, '?' :: rest => GlobTok.qmark :: globTokensAux fuel rest
  | fuel + 1, '[' :: rest =>
    match classSplit rest with
    | some (neg, content, rest2) =>
      GlobTok.cls neg (classRanges content) :: globTokensAux fuel rest2
    | none => GlobTok.lit '[' :: globTokensAux fuel rest
  | fuel + 1, c :: rest => GlobTok.lit c :: globTokensAux fuel rest

/-- Tokenize a glob pattern as `fnmatch.translate` reads it. -/
def globTokens (cs : List Char) : List GlobTok :=
  globTokensAux cs.length cs

/-- Does character `c` satisfy a (possibly negated) class? -/
def clsMatch (neg : Bool) (ranges : List (Char × Char)) (c : Char) : Bool :=
  neg != ranges.any (fun pr => pr.1 ≤ c && c ≤ pr.2)

/-- Match a token list against a string, with the usual backtracking
semantics of the regex `fnmatch.translate` produces (`*` ↦ `.*`,
`?` ↦ `.`, classes ↦ `[...]`, full match).  The `fuel` only serves
termination: every recursive call shrinks `tokens.length + s.length`, so
`tokens.length + s.length + 1` is always enough (see `globEval`). -/
def globEvalAux : Nat → List GlobTok → List Char → Bool
  | 0, _, _ => false
  | _ + 1, [], s => s.isEmpty
  | fuel + 1, GlobTok.star :: ps, s =>
    globEvalAux fuel ps s ||
      (match s with
       | [] => false
       | _ :: s2 => globEvalAux fuel (GlobTok.star :: ps) s2)
  | fuel + 1, GlobTok.qmark :: ps, _ :: s2 => globEvalAux fuel ps s2
  | _ + 1, GlobTok.qmark :: _, [] => false
  | fuel + 1, GlobTok.cls neg rs :: ps, c :: s2 =>
    clsMatch neg rs c && globEvalAux fuel ps s2
  | _ + 1, GlobTok.cls _ _ :: _, [] => false
  | fuel + 1, GlobTok.lit c :: ps, d :: s2 => (c == d) && globEvalAux fuel ps s2
  | _ + 1, GlobTok.lit _ :: _, [] => false

/-- Match a tokenized glob against a character list. -/
def globEval (ps : List GlobTok) (s : List Char) : Bool :=
  globEvalAux (ps.length + s.length + 1) ps s

/-- `fnmatch.fnmatch(name, pattern)` on a POSIX host (where
`os.path.normcase` is the identity). -/
def fnmatch (name : String) (pattern : String) : Bool :=
  globEval (globTokens pattern.data) name.data

/-- `glob_match` (`combine.py` lines 43-50): does the field match any of
the supplied globs?  An absent (`None`) or empty list matches nothing. -/
def glob_match (field : String) (globs : List String) : Bool :=
  globs.any (fun pattern => fnmatch field pattern)

/-- Glob-match an optional field against an optional glob list: false
when either is absent (used to state the `combine.py` filter law). -/
def globOptMatch (field : Option String) (globs : Option (List String)) : Bool :=
  match field, globs with
  | some f, some g => glob_match f g
  | _, _ => false

/-- The `name`/`type` keys of one raw pattern mapping as `combine.py`
reads them; `none` models an absent key. -/
structure CombineEntry where
  name : Option String
  type : Option String
deriving DecidableEq, Repr

/-- The include/exclude decision of `combine.py`'s `main`
(lines 79-112), transcribed from its imperative flow: `include` starts
true; if any include list was supplied it starts false instead and is set
when the present `name` (resp. `type`) key matches an include-name
(resp. include-type) glob; then a matching exclude-type or exclude-name
glob clears it.  `none` lists model CLI arguments that were not given. -/
def combine_include (includeName includeType excludeName excludeType : Option (List String))
    (p : CombineEntry) : Bool :=
  let include1 :=
    if includeName.isSome || includeType.isSome then
      let i1 := globOptMatch p.name includeName
      let i2 := if globOptMatch p.type includeType then true else i1
      i2
    else true
  let include2 := if globOptMatch p.type excludeType then false else include1
  let include3 := if globOptMatch p.name excludeName then false else include2
  include3

/-- Python `pattern_type in lst` where `pattern_type` may be `None` and
`lst` is a list of strings: `None` is never a member. -/
def optMem (t : Option String) (lst : List String) : Bool :=
  match t with
  | some s => lst.contains s
  | none => false

/-- The include/exclude guards of `parse_patterns` (`test.py`
lines 101-107): literal membership of the pattern's `type` in the lists
(no globbing).  An empty list is falsy in Python, hence no filter. -/
def parse_keep (includeList excludeList : List String) (ptype : Option String) : Bool :=
  if !includeList.isEmpty then
    if !(optMem ptype includeList) then false
    else if !excludeList.isEmpty then !(optMem ptype excludeList) else true
  else if !excludeList.isEmpty then !(optMem ptype excludeList) else true

/-- One `regex:` mapping as read from `patterns.yml`; `none` models an
absent key (`version` missing defaults to `"0.1"`, a missing `pattern` is
a missing required dataclass field). -/
structure RawRegex where
  pattern : Option String
  version : Option String
  start : Option String
  stop : Option String
  additional_match : List String
  additional_not_match : List String
deriving DecidableEq, Repr

/-- One pattern entry mapping of `patterns.yml` as both loaders read it;
`none` models an absent key. -/
structure RawPattern where
  name : Option String
  type : Option String
  description : Option String
  experimental : Bool
  regex : Option RawRegex
  expected : List ExpectedDict
  comments : List String
deriving DecidableEq, Repr

/-- The normalized `Regex` dataclass of `patterns.py` after
`__post_init__`.  The source's `end` field is called `stop` here because
`end` is a Lean keyword. -/
structure PRegex where
  pattern : String
  version : Option String
  start : Option String
  stop : Option String
  additional_match : List String
  additional_not_match : List String
deriving DecidableEq, Repr

/-- The `Expected` dataclass of `patterns.py` after `__post_init__`
validation. -/
structure PExpected where
  name : String
  start_offset : Option Int
  end_offset : Option Int
deriving DecidableEq, Repr

/-- The `Pattern` dataclass of `patterns.py` after `__post_init__`
(the auxiliary `test` field, unused by every claim, is omitted). -/
structure PPattern where
  name : String
  description : Option String
  experimental : Bool
  regex : PRegex
  expected : List PExpected
  type : Option String
  comments : List String
deriving DecidableEq, Repr

/-- Is `c` one of the characters `str.strip()` removes (the ASCII
whitespace characters; the rarer Unicode space characters are not
modelled)? -/
def isPySpace (c : Char) : Bool :=
  c = ' ' || c = '\t' || c = '\n' || c = '\r' || c = '\x0b' || c = '\x0c'

/-- Python `version.startswith("v")` for the one-character prefix the
loader checks. -/
def startsWithV (s : String) : Bool :=
  match s.data with
  | c :: _ => c = 'v'
  | [] => false

/-- Python `str.strip()` with no argument. -/
def pyStrip (s : String) : String :=
  String.mk (((s.data.dropWhile isPySpace).reverse.dropWhile isPySpace).reverse)

/-- Python `str.strip()` guarded by truthiness, as `Regex.__post_init__`
applies it: `if self.pattern: self.pattern = self.pattern.strip()`. -/
def stripIfTruthy (s : String) : String :=
  if s = "" then s else pyStrip s

/-- `Regex(**raw)` (`patterns.py` lines 9-29): a missing `pattern` key is
a `TypeError`; `version` defaults to `"0.1"` and is prefixed with `"v"`
unless already so; truthy `pattern`/`start`/`end` strings are stripped.
No emptiness validation is performed on `pattern`. -/
def mkRegex (r : RawRegex) : Except String PRegex :=
  match r.pattern with
  | none => Except.error "missing required argument: pattern"
  | some p =>
    let v := (r.version.getD "0.1")
    Except.ok
      { pattern := stripIfTruthy p,
        version := some (if startsWithV v then v else "v" ++ v),
        start := r.start.map stripIfTruthy,
        stop := r.stop.map stripIfTruthy,
        additional_match := r.additional_match,
        additional_not_match := r.additional_not_match }

/-- `Expected(**raw)` (`patterns.py` lines 52-69): `name` is required;
`start_offset` must be ≥ −1; `end_offset` must be positive or −1
(`end_offset = 0` raises `ValueError`). -/
def mkExpected (r : ExpectedDict) : Except String PExpected :=
  match r.name with
  | none => Except.error "missing required argument: name"
  | some n =>
    if (match r.start_offset with | some s => decide (s < -1) | none => false) then
      Except.error "The start offset should be zero, positive, or -1 (the end of the data)"
    else if (match r.end_offset with | some e => decide (e = 0 ∨ e < -1) | none => false) then
      Except.error "The expected end offset should be positive, or -1 (the end of the data)"
    else
      Except.ok { name := n, start_offset := r.start_offset, end_offset := r.end_offset }

/-- `Pattern(**raw)` (`patterns.py` lines 72-94): `name` is required; a
missing `regex` key makes the `Regex()` default factory raise for its
missing `pattern`; the `regex` mapping and every `expected` entry are
validated, and any failure propagates out of the constructor. -/
def mkPattern (r : RawPattern) : Except String PPattern :=
  match r.name with
  | none => Except.error "missing required argument: name"
  | some nm => do
    let regex ← match r.regex with
      | none => Except.error "missing required argument: pattern"
      | some rr => mkRegex rr
    let expected ← r.expected.mapM mkExpected
    Except.ok
      { name := nm, description := r.description, experimental := r.experimental,
        regex := regex, expected := expected, type := r.type, comments := r.comments }

/-- `PatternsConfig.__post_init__` (`patterns.py` lines 109-118): build
each `Pattern`, log and skip any entry whose constructor raises, keep the
rest in order; the loader itself never fails. -/
def patternsConfig_patterns (raws : List RawPattern) : List PPattern :=
  raws.filterMap (fun r => (mkPattern r).toOption)

/-- `Pattern.__init__` of `test.py` (lines 52-66) applied to one raw
entry, after `parse_patterns` has read `pattern["regex"]` (a `KeyError`
when absent) and `regex.get("pattern")` (whose `None.strip()` is an
`AttributeError` when absent): strings stripped, `expected` kept raw. -/
def mkTPattern (r : RawPattern) : Except String TPattern :=
  match r.regex with
  | none => Except.error "KeyError: regex"
  | some rx =>
    match rx.pattern with
    | none => Except.error "AttributeError: NoneType has no attribute strip"
    | some p =>
      Except.ok
        { name := r.name.map pyStrip,
          type := r.type.map pyStrip,
          description := r.description.map pyStrip,
          start := rx.start.map pyStrip,
          pattern := pyStrip p,
          stop := rx.stop.map pyStrip,
          additional_matches := rx.additional_match.map pyStrip,
          additional_not_matches := rx.additional_not_match.map pyStrip,
          expected := r.expected }

/-- `parse_patterns` (`test.py` lines 84-135) over the entries of one
`patterns.yml`: apply the include/exclude type filter, then build each
kept pattern; an exception from a malformed kept entry propagates and
aborts the whole parse (there is no `try` in this loader). -/
def parse_patterns (includeList excludeList : List String) :
    List RawPattern → Except String (List TPattern)
  | [] => Except.ok []
  | r :: rest =>
    if parse_keep includeList excludeList r.type then do
      let t ← mkTPattern r
      let ts ← parse_patterns includeList excludeList rest
      Except.ok (t :: ts)
    else parse_patterns includeList excludeList rest


/-- A well-formed raw `patterns.yml` entry used as a concrete fixture. -/
def rawGood1 : RawPattern :=
  { name := some "AWS key", type := some "aws_key", description := none,
    experimental := false,
    regex := some { pattern := some "[A-Z0-9]{20}", version := none, start := none,
                    stop := none, additional_match := [], additional_not_match := [] },
    expected := [{ name := some "a.txt", start_offset := some 0, end_offset := some 20 }],
    comments := [] }

/-- A second well-formed raw entry used as a concrete fixture. -/
def rawGood2 : RawPattern :=
  { name := some "GCP key", type := some "gcp_key", description := none,
    experimental := false,
    regex := some { pattern := some "[a-z0-9]{10}", version := some "1.2", start := none,
                    stop := none, additional_match := [], additional_not_match := [] },
    expected := [], comments := [] }

/-- A raw entry whose `expected` carries the illegal `end_offset = 0`
(invalid per `Expected.__post_init__`). -/
def rawBadOffset : RawPattern :=
  { name := some "bad", type := some "bad_t", description := none,
    experimental := false,
    regex := some { pattern := some "x", version := none, start := none,
                    stop := none, additional_match := [], additional_not_match := [] },
    expected := [{ name := some "a.txt", start_offset := some 0, end_offset := some 0 }],
    comments := [] }

/-- A raw entry missing the required `regex` key entirely. -/
def rawNoRegex : RawPattern :=
  { name := some "noregex", type := some "noregex_t", description := none,
    experimental := false, regex := none, expected := [], comments := [] }

/-- A raw entry whose regex `pattern` string is whitespace only (empty
after trim). -/
def rawEmptyPattern : RawPattern :=
  { name := some "empty", type := some "empty_t", description := none,
    experimental := false,
    regex := some { pattern := some "   ", version := none, start := none,
                    stop := none, additional_match := [], additional_not_match := [] },
    expected := [], comments := [] }

/-- C10 fixture: the expectation of the first directory's pattern. -/
def e1C10 : ExpectedDict :=
  { name := some "a.txt", start_offset := some 0, end_offset := some 5 }

/-- C10 fixture: the match recorded while scanning the first directory. -/
def m1C10 : StoredRec :=
  { file := { name := "a.txt", start_offset := 0, end_offset := 5 },
    groups := Parts.utf8 [] [] [] }

/-- C10 fixture: the extra expectation of the second directory's pattern. -/
def e2C10 : ExpectedDict :=
  { name := some "b.txt", start_offset := some 1, end_offset := some 6 }

/-- C10 fixture: the match recorded while scanning the second directory. -/
def m2C10 : StoredRec :=
  { file := { name := "b.txt", start_offset := 1, end_offset := 6 },
    groups := Parts.utf8 [] [] [] }

/-- C10 fixture: the first directory's pattern, named `"n"`. -/
def p1C10 : TPattern :=
  { name := some "n", type := some "t1", description := none, start := none,
    pattern := "x", stop := none, additional_matches := [],
    additional_not_matches := [], expected := [e1C10] }

/-- C10 fixture: the second directory's pattern, also named `"n"`. -/
def p2C10 : TPattern :=
  { name := some "n", type := some "t2", description := none, start := none,
    pattern := "y", stop := none, additional_matches := [],
    additional_not_matches := [], expected := [e1C10, e2C10] }

/-- C10 fixture run: two pattern-set directories whose patterns share the
name `"n"`; each directory's scan records one match under that name. -/
def dirs10 : List DirRun :=
  [([p1C10], [(some "n", m1C10)]), ([p2C10], [(some "n", m2C10)])]

/-! ### Helper lemmas -/

theorem utf8Run_of_ascii (l : Bytes) (h : ∀ x ∈ l, x ≤ 0x7F) :
    ∀ acc lo hi out, utf8Run { need := 0, acc := acc, lo := lo, hi := hi, out := out } l =
      some (out.reverse ++ l) := by
  induction l with
  | nil => intro acc lo hi out; simp [utf8Run]
  | cons x xs ih =>
    intro acc lo hi out
    have hx : x ≤ 0x7F := h x (List.mem_cons_self x xs)
    have hrest : ∀ y ∈ xs, y ≤ 0x7F := fun y hy => h y (List.mem_cons_of_mem x hy)
    rw [utf8Run, utf8Step, if_pos rfl, if_pos hx]
    simp only []
    rw [ih hrest acc lo hi (x :: out)]
    simp

theorem utf8Decode_of_ascii (b : Bytes) (h : ∀ x ∈ b, x ≤ 0x7F) :
    utf8Decode b = some b := by
  unfold utf8Decode
  rw [utf8Run_of_ascii b h]
  rfl

theorem asciiDecode_none_of_utf8Decode_none (b : Bytes) (h : utf8Decode b = none) :
    asciiDecode b = none := by
  unfold asciiDecode
  by_cases hall : b.all (fun x => x ≤ 0x7F) = true
  · have hp : ∀ x ∈ b, x ≤ 0x7F := by
      intro x hx
      simpa using List.all_eq_true.mp hall x hx
    rw [utf8Decode_of_ascii b hp] at h
    exact absurd h (by simp)
  · simp [hall]

theorem storeLookup_storeAdd (st : ResultsStore) (n : Option String) (r : StoredRec)
    (nm : Option String) :
    storeLookup (storeAdd st n r) nm =
      if nm = n then storeLookup st nm ++ [r] else storeLookup st nm := by
  induction st with
  | nil =>
    by_cases h : nm = n
    · subst h; simp [storeAdd, storeLookup]
    · simp [storeAdd, storeLookup, h, Ne.symm h]
  | cons kv rest ih =>
    obtain ⟨k, v⟩ := kv
    by_cases hk : k = n
    · subst hk
      by_cases hnm : nm = k
      · subst hnm; simp [storeAdd, storeLookup]
      · simp [storeAdd, storeLookup, hnm, Ne.symm hnm]
    · by_cases hnm : k = nm
      · subst hnm
        have hn : ¬ k = n := hk
        simp [storeAdd, storeLookup, hk, Ne.symm hn]
      · simp [storeAdd, storeLookup, hk, hnm, ih]

theorem storeLookup_runScanEvents (evts : ScanEvents) :
    ∀ (st : ResultsStore) (nm : Option String),
      storeLookup (runScanEvents st evts) nm =
        storeLookup st nm ++ (evts.filter (fun ev => ev.1 == nm)).map (fun ev => ev.2) := by
  induction evts with
  | nil => intro st nm; simp [runScanEvents]
  | cons ev rest ih =>
    intro st nm
    have step : runScanEvents st (ev :: rest) = runScanEvents (storeAdd st ev.1 ev.2) rest := rfl
    rw [step, ih, storeLookup_storeAdd]
    by_cases h : ev.1 = nm
    · rw [List.filter_cons_of_pos (by simp [h]), if_pos h.symm]
      simp
    · rw [List.filter_cons_of_neg (by simp [h]), if_neg (Ne.symm h)]
theorem storeLookup_foldl_runScanEvents (dirs : List ScanEvents) :
    ∀ (st : ResultsStore) (nm : Option String),
      storeLookup (dirs.foldl runScanEvents st) nm =
        storeLookup st nm ++ ((dirs.flatten).filter (fun ev => ev.1 == nm)).map (fun ev => ev.2) := by
  induction dirs with
  | nil => intro st nm; simp
  | cons d ds ih =>
    intro st nm
    have step : (d :: ds).foldl runScanEvents st = ds.foldl runScanEvents (runScanEvents st d) := rfl
    rw [step, ih, storeLookup_runScanEvents]
    simp [List.filter_append]

theorem additional_filters_pass_eq (rmatch : String → Bytes → Bool)
    (am anm : List String) (body : Bytes) (noAdd : Bool) :
    additional_filters_pass rmatch am anm body noAdd =
      (noAdd || (am.all (fun p => rmatch p body) && !(anm.any (fun p => rmatch p body)))) := by
  cases noAdd with
  | true => simp [additional_filters_pass]
  | false =>
    cases am with
    | nil =>
      cases anm with
      | nil => simp [additional_filters_pass]
      | cons a anms =>
        simp only [additional_filters_pass, if_neg Bool.false_ne_true]
        cases h : (a :: anms).any (fun p => rmatch p body) <;> simp [h]
    | cons m ams =>
      cases h1 : (m :: ams).all (fun p => rmatch p body) with
      | false => simp [additional_filters_pass, h1]
      | true =>
        cases anm with
        | nil => simp [additional_filters_pass, h1]
        | cons a anms =>
          cases h2 : (a :: anms).any (fun p => rmatch p body) <;>
            simp [additional_filters_pass, h1, h2]

theorem pcre_result_match_eq_some (rmatch : String → Bytes → Bool) (pat : TPattern)
    (pathName : String) (s e : Nat) (pm : PcreMatch) (wr noAdd : Bool) (rec : StoredRec)
    (h : pcre_result_match rmatch pat pathName s e (some pm) wr noAdd = some rec) :
    rec = { file := { name := pathName,
                      start_offset := (s : Int) + pm.gstart.length,
                      end_offset := (e : Int) - pm.gend.length },
            groups := decodeParts pm.gstart pm.gpattern pm.gend } := by
  unfold pcre_result_match at h
  simp only [] at h
  by_cases hf : additional_filters_pass rmatch pat.additional_matches
      pat.additional_not_matches pm.gpattern noAdd = true
  · rw [if_pos hf] at h
    cases wr with
    | true =>
      simp only [if_pos] at h
      exact (Option.some_inj.mp h).symm
    | false => simp at h
  · rw [if_neg hf] at h
    simp at h

theorem decodeParts_utf8 (g1 g2 g3 : Bytes) (a b c : List Nat)
    (h1 : utf8Decode g1 = some a) (h2 : utf8Decode g2 = some b)
    (h3 : utf8Decode g3 = some c) :
    decodeParts g1 g2 g3 = Parts.utf8 a b c := by
  unfold decodeParts
  rw [h1, h2, h3]

theorem decodeParts_debug (g1 g2 g3 : Bytes)
    (h : utf8Decode g1 = none ∨ utf8Decode g2 = none ∨ utf8Decode g3 = none) :
    decodeParts g1 g2 g3 = Parts.debug g1 g2 g3 := by
  unfold decodeParts
  cases hu1 : utf8Decode g1 with
  | none =>
    rw [asciiDecode_none_of_utf8Decode_none g1 hu1]
  | some a =>
    cases hu2 : utf8Decode g2 with
    | none =>
      rw [asciiDecode_none_of_utf8Decode_none g2 hu2]
      cases asciiDecode g1 <;> rfl
    | some b =>
      cases hu3 : utf8Decode g3 with
      | none =>
        rw [asciiDecode_none_of_utf8Decode_none g3 hu3]
        cases asciiDecode g1 <;> cases asciiDecode g2 <;> rfl
      | some c =>
        rw [hu1, hu2, hu3] at h
        rcases h with h | h | h <;> exact absurd h (by simp)

theorem zipLongest_eq_zip (labels : List (Option String)) (regex : List Bytes)
    (h : labels.length = regex.length) :
    zipLongest labels regex = (labels.zip regex).map (fun p => (p.1, some p.2)) := by
  induction labels generalizing regex with
  | nil =>
    cases regex with
    | nil => rfl
    | cons y ys => simp at h
  | cons x xs ih =>
    cases regex with
    | nil => simp at h
    | cons y ys =>
      simp only [List.length_cons, Nat.add_right_cancel_iff] at h
      simp [zipLongest, List.zip_cons_cons, ih ys h]

theorem hsCompileFallback_eq_find (ok1 : Bytes → Bool)
    (pairs : List (Option String × Bytes)) :
    hsCompileFallback ok1 (pairs.map (fun p => (p.1, some p.2))) =
      (match pairs.find? (fun lr => !(ok1 lr.2)) with
       | some lr => (false, [lr.1])
       | none => (true, [])) := by
  induction pairs with
  | nil => rfl
  | cons p rest ih =>
    obtain ⟨l, r⟩ := p
    cases h : ok1 r with
    | true =>
      have hfind : List.find? (fun lr => !(ok1 lr.2)) ((l, r) :: rest) =
          List.find? (fun lr => !(ok1 lr.2)) rest := by
        rw [List.find?_cons_of_neg]
        simp [h]
      simp only [List.map_cons, hsCompileFallback, h, if_pos]
      rw [ih, hfind]
    | false =>
      have hfind : List.find? (fun lr => !(ok1 lr.2)) ((l, r) :: rest) = some (l, r) := by
        rw [List.find?_cons_of_pos]
        simp [h]
      simp only [List.map_cons, hsCompileFallback, h]
      rw [hfind]
      simp

theorem take_of_take_eq_append {α : Type} (l pre post : List α) (n : Nat)
    (h : l.take n = pre ++ post) :
    l.take pre.length = pre := by
  have hlen : pre.length ≤ n := by
    have h2 := congrArg List.length h
    simp only [List.length_take, List.length_append] at h2
    omega
  have h3 : (l.take n).take pre.length = l.take pre.length := by
    rw [List.take_take, Nat.min_eq_left hlen]
  rw [← h3, h, List.take_left]

theorem test_patterns_loop_append (xs ys : List DirRun) :
    ∀ (st : ResultsStore) (ret : Bool),
      test_patterns_loop st ret (xs ++ ys) =
        test_patterns_loop (test_patterns_loop st ret xs).1
          (test_patterns_loop st ret xs).2 ys := by
  induction xs with
  | nil => intro st ret; rfl
  | cons d ds ih =>
    intro st ret
    obtain ⟨patterns, evts⟩ := d
    show test_patterns_loop (runScanEvents st evts)
        (test_patterns_ret patterns (runScanEvents st evts) ret) (ds ++ ys) = _
    rw [ih]
    rfl

theorem test_patterns_loop_fst (dirs : List DirRun) :
    ∀ (st : ResultsStore) (ret : Bool),
      (test_patterns_loop st ret dirs).1 = (dirs.map Prod.snd).foldl runScanEvents st := by
  induction dirs with
  | nil => intro st ret; rfl
  | cons d ds ih =>
    intro st ret
    obtain ⟨patterns, evts⟩ := d
    show (test_patterns_loop (runScanEvents st evts)
        (test_patterns_ret patterns (runScanEvents st evts) ret) ds).1 = _
    rw [ih]
    rfl

/-! ### Claim theorems -/

/-- C10 counterexample: reconciliation is interleaved with scanning, per
pattern-set directory.  In a two-directory run whose patterns share the
name `"n"`, the first directory's pattern is reconciled before the second
directory is scanned: its checks see only the first match and it passes,
and the whole run returns `true` (first and third conjuncts) — even
though, against the union of both same-named patterns' matches (which is
what the final store holds, second conjunct), its expected/unexpected
checks fail, the second match being unexpected for it (fourth conjunct).
So the earlier pattern's checks did not range over the union, refuting
the claim's reconciler conjunct. -/
theorem c10_result_store_counterexample :
    (test_patterns_run [] dirs10).2 = true
    ∧ storeLookup (test_patterns_run [] dirs10).1 (some "n") = [m1C10, m2C10]
    ∧ pattern_reconcile_ok p1C10.expected [m1C10] = true
    ∧ pattern_reconcile_ok p1C10.expected [m1C10, m2C10] = false := by
  refine ⟨rfl, rfl, rfl, rfl⟩

/-- C10 (amended): the `RESULTS` store is keyed by pattern name and is
cleared only at the start of a fixture run, not between pattern-set
directories or between patterns — after the run, the list stored under any
name is the sequence of matches recorded under that name across *all*
directories, so two same-named patterns (within one set or across sets)
append to the same list (first conjunct), and the store state preceding
the run is discarded (second conjunct).  Reconciliation, however, runs
per directory, immediately after that directory's scans: a directory's
patterns are reconciled against the store holding exactly the scan events
of its own and earlier directories (third conjunct) — an earlier
pattern's expected/unexpected checks therefore range only over the
matches recorded under its name so far, not over later directories'
matches; only the last-reconciled same-named pattern ranges over the full
union. -/
theorem c10_result_store_amended :
    (∀ (init : ResultsStore) (dirs : List DirRun) (nm : Option String),
      storeLookup (test_patterns_run init dirs).1 nm =
        (((dirs.map Prod.snd).flatten).filter (fun ev => ev.1 == nm)).map (fun ev => ev.2))
    ∧ (∀ (init init2 : ResultsStore) (dirs : List DirRun),
        test_patterns_run init dirs = test_patterns_run init2 dirs)
    ∧ (∀ (init : ResultsStore) (pre post : List DirRun)
        (patterns : List TPattern) (evts : ScanEvents),
        test_patterns_run init (pre ++ (patterns, evts) :: post) =
          test_patterns_loop
            (test_patterns_store [] ((pre.map Prod.snd) ++ [evts]))
            (test_patterns_ret patterns
              (test_patterns_store [] ((pre.map Prod.snd) ++ [evts]))
              (test_patterns_run init pre).2)
            post) := by
  refine ⟨?_, ?_, ?_⟩
  · intro init dirs nm
    unfold test_patterns_run
    rw [test_patterns_loop_fst, storeLookup_foldl_runScanEvents]
    simp [storeLookup]
  · intro init init2 dirs
    rfl
  · intro init pre post patterns evts
    unfold test_patterns_run
    rw [test_patterns_loop_append]
    have h2 : test_patterns_store [] ((pre.map Prod.snd) ++ [evts]) =
        runScanEvents ((pre.map Prod.snd).foldl runScanEvents []) evts := by
      unfold test_patterns_store
      rw [List.foldl_append]
      rfl
    rw [h2, ← test_patterns_loop_fst pre [] true]
    rfl

/-- C2: for a pattern with non-empty `expected`, `test_patterns` reports
it as passing iff every expected `(name, start_offset, end_offset)` triple
is matched by some observed result and every observed result is matched by
some expected triple (first conjunct); patterns with empty `expected`
never change the run's `ret` flag (second conjunct: removing them from a
directory's pattern list leaves the reconciliation verdict unchanged). -/
theorem c2_reconciler_verdict (exp : List ExpectedDict) (res : List StoredRec)
    (_hne : exp ≠ []) :
    (pattern_reconcile_ok exp res = true ↔
      ((∀ e ∈ exp, ∃ r ∈ res, path_offsets_match e r.file = true) ∧
       (∀ r ∈ res, ∃ e ∈ exp, path_offsets_match e r.file = true)))
    ∧ (∀ (ps : List TPattern) (store : ResultsStore) (ret : Bool),
        test_patterns_ret (ps.filter (fun p => !p.expected.isEmpty)) store ret =
          test_patterns_ret ps store ret) := by
  constructor
  · simp [pattern_reconcile_ok, List.all_eq_true, List.any_eq_true]
  · intro ps
    induction ps with
    | nil => intro store ret; rfl
    | cons p ps ih =>
      intro store ret
      by_cases hp : p.expected.isEmpty
      · have hfilter : (p :: ps).filter (fun p => !p.expected.isEmpty) =
            ps.filter (fun p => !p.expected.isEmpty) := by
          simp [List.filter, hp]
        rw [hfilter, ih]
        have hp2 : p.expected = [] := by simpa using hp
        have : test_patterns_ret (p :: ps) store ret = test_patterns_ret ps store ret := by
          unfold test_patterns_ret
          simp [List.foldl_cons, hp2]
        rw [this]
      · have hfilter : (p :: ps).filter (fun p => !p.expected.isEmpty) =
            p :: ps.filter (fun p => !p.expected.isEmpty) := by
          simp [List.filter, hp]
        rw [hfilter]
        unfold test_patterns_ret
        rw [List.foldl_cons, List.foldl_cons]
        exact ih store _

/-- C3 counterexample: the reconciler performs no `-1` sentinel
resolution.  An expectation declared with `end_offset = -1` against a
5-byte buffer is *not* matched by the observed result whose end offset is
the buffer length 5: `path_offsets_match` compares the raw integers, and
the pattern is reported as failing, contradicting the claim that `-1` is
resolved to the buffer length before comparison. -/
theorem c3_sentinel_counterexample :
    path_offsets_match
        { name := some "a.txt", start_offset := some 0, end_offset := some (-1) }
        { name := "a.txt", start_offset := 0, end_offset := 5 } = false
    ∧ pattern_reconcile_ok
        [{ name := some "a.txt", start_offset := some 0, end_offset := some (-1) }]
        [{ file := { name := "a.txt", start_offset := 0, end_offset := 5 },
           groups := Parts.utf8 [] [] [] }] = false := by
  exact ⟨rfl, rfl⟩

/-- C3 (amended): `path_offsets_match` compares declared and observed
offsets by raw integer equality, with no resolution of the `-1` sentinel.
Consequently an expectation declaring `start_offset` or `end_offset` as
`-1` never matches an observed result whose corresponding offset is
non-negative (as every offset equal to a buffer length is), and a pattern
carrying such an expectation is reported as failing whenever all observed
end offsets are non-negative. -/
theorem c3_sentinel_amended (e : ExpectedDict) (f : FileDetails)
    (exp : List ExpectedDict) (res : List StoredRec) :
    (e.end_offset = some (-1) → 0 ≤ f.end_offset → path_offsets_match e f = false)
    ∧ (e.start_offset = some (-1) → 0 ≤ f.start_offset → path_offsets_match e f = false)
    ∧ (e.end_offset = some (-1) → (∀ r ∈ res, 0 ≤ r.file.end_offset) →
        pattern_reconcile_ok (e :: exp) res = false) := by
  refine ⟨?_, ?_, ?_⟩
  · intro h hf
    have hne : (-1 : Int) ≠ f.end_offset := by omega
    simp [path_offsets_match, h, hne]
  · intro h hf
    have hne : (-1 : Int) ≠ f.start_offset := by omega
    simp [path_offsets_match, h, hne]
  · intro h hall
    have hany : res.any (fun r => path_offsets_match e r.file) = false := by
      rw [List.any_eq_false]
      intro r hr
      have hne : (-1 : Int) ≠ r.file.end_offset := by
        have := hall r hr
        omega
      simp [path_offsets_match, h, hne]
    simp [pattern_reconcile_ok, hany]

/-- C3 witness: the amended theorem applied at the counterexample's
concrete input. -/
theorem c3_sentinel_witness :
    path_offsets_match
        { name := some "a.txt", start_offset := some 0, end_offset := some (-1) }
        { name := "a.txt", start_offset := 0, end_offset := 5 } = false
    ∧ pattern_reconcile_ok
        [{ name := some "a.txt", start_offset := some 0, end_offset := some (-1) }]
        [{ file := { name := "a.txt", start_offset := 2, end_offset := 7 },
           groups := Parts.utf8 [] [] [] }] = false :=
  ⟨(c3_sentinel_amended
      { name := some "a.txt", start_offset := some 0, end_offset := some (-1) }
      { name := "a.txt", start_offset := 0, end_offset := 5 } [] []).1 rfl (by decide),
   (c3_sentinel_amended
      { name := some "a.txt", start_offset := some 0, end_offset := some (-1) }
      { name := "a.txt", start_offset := 0, end_offset := 5 } []
      [{ file := { name := "a.txt", start_offset := 2, end_offset := 7 },
         groups := Parts.utf8 [] [] [] }]).2.2 rfl (by decide)⟩

/-- C6: with the `no_additional_matches` flag unset, a refined match is
recorded iff every `additional_match` regex matches the body capture and
no `additional_not_match` regex matches it (first conjunct: the record is
produced exactly under that condition, a filter failure producing `none`,
i.e. a silent suppression with no recorded error); with the flag set, the
match is processed exactly as if both filter lists were empty (second
conjunct). -/
theorem c6_additional_match_filter (rmatch : String → Bytes → Bool) (pat : TPattern)
    (pathName : String) (s e : Nat) (pm : PcreMatch) (noAdd : Bool) :
    ((pcre_result_match rmatch pat pathName s e (some pm) true noAdd).isSome =
      (noAdd ||
        (pat.additional_matches.all (fun q => rmatch q pm.gpattern) &&
         !(pat.additional_not_matches.any (fun q => rmatch q pm.gpattern)))))
    ∧ (∀ (m : Option PcreMatch) (wr : Bool),
        pcre_result_match rmatch
            { pat with additional_matches := [], additional_not_matches := [] }
            pathName s e m wr false =
          pcre_result_match rmatch pat pathName s e m wr true) := by
  constructor
  · unfold pcre_result_match
    simp only []
    rw [additional_filters_pass_eq]
    cases h : (noAdd || (pat.additional_matches.all (fun q => rmatch q pm.gpattern) &&
        !(pat.additional_not_matches.any (fun q => rmatch q pm.gpattern)))) <;> simp [h]
  · intro m wr
    cases m with
    | none => rfl
    | some pm2 =>
      unfold pcre_result_match
      simp only []
      rw [additional_filters_pass_eq, additional_filters_pass_eq]
      simp

/-- C7 counterexample: the claim asserts the fallback single-byte decoding
succeeds on some byte input where UTF-8 decoding fails.  The source's
fallback is `decode("ascii")`, and no such input exists: every
ASCII-decodable byte string is UTF-8-decodable. -/
theorem c7_decode_fallback_counterexample :
    ¬ ∃ b : Bytes, utf8Decode b = none ∧ asciiDecode b ≠ none := by
  rintro ⟨b, h1, h2⟩
  exact h2 (asciiDecode_none_of_utf8Decode_none b h1)

/-- C7 (amended): decoding for reporting attempts UTF-8 first (second
conjunct, `some` cases); the ASCII fallback is attempted next but can
never succeed when UTF-8 failed (first conjunct), so on any UTF-8 failure
the debug `str()` representation is used (second conjunct, `none` cases);
and the recorded offsets are computed from the byte lengths of the raw
captures alone, unaffected by which decoding was chosen (third
conjunct). -/
theorem c7_decode_fallback_amended :
    (∀ b : Bytes, utf8Decode b = none → asciiDecode b = none)
    ∧ (∀ g1 g2 g3 : Bytes,
        (∀ a b c, utf8Decode g1 = some a → utf8Decode g2 = some b →
          utf8Decode g3 = some c → decodeParts g1 g2 g3 = Parts.utf8 a b c) ∧
        ((utf8Decode g1 = none ∨ utf8Decode g2 = none ∨ utf8Decode g3 = none) →
          decodeParts g1 g2 g3 = Parts.debug g1 g2 g3) ∧
        (∀ a b c, decodeParts g1 g2 g3 ≠ Parts.ascii a b c))
    ∧ (∀ (rmatch : String → Bytes → Bool) (pat : TPattern) (pathName : String)
        (s e : Nat) (pm : PcreMatch) (noAdd : Bool) (rec : StoredRec),
        pcre_result_match rmatch pat pathName s e (some pm) true noAdd = some rec →
          rec.file.start_offset = (s : Int) + pm.gstart.length ∧
          rec.file.end_offset = (e : Int) - pm.gend.length) := by
  refine ⟨asciiDecode_none_of_utf8Decode_none, ?_, ?_⟩
  · intro g1 g2 g3
    refine ⟨fun a b c h1 h2 h3 => decodeParts_utf8 g1 g2 g3 a b c h1 h2 h3, ?_, ?_⟩
    · exact decodeParts_debug g1 g2 g3
    · intro a b c
      cases hu1 : utf8Decode g1 with
      | none => simp [decodeParts_debug g1 g2 g3 (Or.inl hu1)]
      | some x =>
        cases hu2 : utf8Decode g2 with
        | none => simp [decodeParts_debug g1 g2 g3 (Or.inr (Or.inl hu2))]
        | some y =>
          cases hu3 : utf8Decode g3 with
          | none => simp [decodeParts_debug g1 g2 g3 (Or.inr (Or.inr hu3))]
          | some z => simp [decodeParts_utf8 g1 g2 g3 x y z hu1 hu2 hu3]
  · intro rmatch pat pathName s e pm noAdd rec h
    rw [pcre_result_match_eq_some rmatch pat pathName s e pm true noAdd rec h]
    exact ⟨rfl, rfl⟩

/-- C7 witness: the amended theorem applied at the byte `0xFF` (UTF-8
decoding fails, and the ASCII fallback also fails) and at a concrete
recorded match. -/
theorem c7_decode_fallback_witness :
    asciiDecode [0xFF] = none
    ∧ decodeParts [0xFF] [49] [121] = Parts.debug [0xFF] [49] [121]
    ∧ (({ file := { name := "f.txt", start_offset := 3, end_offset := 6 },
          groups := Parts.utf8 [120] [49] [121] } : StoredRec).file.start_offset =
        (2 : Int) + ([120] : Bytes).length ∧
       ({ file := { name := "f.txt", start_offset := 3, end_offset := 6 },
          groups := Parts.utf8 [120] [49] [121] } : StoredRec).file.end_offset =
        (7 : Int) - ([121] : Bytes).length) :=
  ⟨c7_decode_fallback_amended.1 [0xFF] rfl,
   ((c7_decode_fallback_amended.2.1 [0xFF] [49] [121]).2.1 (Or.inl rfl)),
   c7_decode_fallback_amended.2.2 (fun _ _ => true)
     { name := some "p", type := none, description := none, start := none,
       pattern := "x", stop := none, additional_matches := [],
       additional_not_matches := [], expected := [] }
     "f.txt" 2 7 { gstart := [120], gpattern := [49], gend := [121] } false
     { file := { name := "f.txt", start_offset := 3, end_offset := 6 },
       groups := Parts.utf8 [120] [49] [121] } rfl⟩

/-- C5 counterexample: with two individually failing patterns in the set,
the fallback phase reports only the first one and returns; the claim that
it "reports every individually failing pattern" is false: the third
pattern also fails individually, yet its label is not reported. -/
theorem c5_compile_fallback_counterexample :
    hs_compile (fun _ => false) (fun b => !(b == [66] || b == [67]))
        [[65], [66], [67]] [some "t1", some "t2", some "t3"] = (false, [some "t2"])
    ∧ (fun (b : Bytes) => !(b == [66] || b == [67])) [67] = false
    ∧ some "t3" ∉ [some "t2"] := by
  refine ⟨rfl, rfl, by decide⟩

/-- C5 (amended): when the bulk compile of a non-empty pattern set fails,
the fallback compiles the patterns individually in order and reports the
*first* individually failing pattern by its label, returning failure
immediately without reporting any later failure; when every pattern
compiles individually despite the bulk failure, it returns success and
reports nothing.  In particular, if exactly one pattern of the set fails
individually, exactly that pattern's label is reported and no other. -/
theorem c5_compile_fallback_amended (okBulk : List Bytes → Bool) (ok1 : Bytes → Bool)
    (regex : List Bytes) (labels : List (Option String))
    (h1 : regex ≠ []) (h2 : okBulk regex = false) (h3 : labels.length = regex.length) :
    hs_compile okBulk ok1 regex labels =
      (match (labels.zip regex).find? (fun lr => !(ok1 lr.2)) with
       | some lr => (false, [lr.1])
       | none => (true, [])) := by
  unfold hs_compile
  have hne : regex.isEmpty = false := by
    cases regex with
    | nil => exact absurd rfl h1
    | cons x xs => rfl
  rw [hne, h2]
  simp only [Bool.false_eq_true, if_false]
  rw [zipLongest_eq_zip labels regex h3, hsCompileFallback_eq_find]

/-- C5 witness: the amended theorem applied to a two-pattern set whose
second pattern is the only individual compile failure: exactly its label
is reported. -/
theorem c5_compile_fallback_witness :
    hs_compile (fun _ => false) (fun b => !(b == [66])) [[65], [66]]
        [some "t1", some "t2"] = (false, [some "t2"]) :=
  (c5_compile_fallback_amended (fun _ => false) (fun b => !(b == [66]))
      [[65], [66]] [some "t1", some "t2"] (by simp) rfl rfl).trans (by rfl)

/-- C4 counterexample: in `parse_patterns` (`test.py`), the include list
is matched by literal membership, not as globs: the include entry
`"gcp_*"` does *not* keep a pattern whose `type` is `"gcp_key"`, although
`"gcp_*"` glob-matches `"gcp_key"` — contradicting the claim that include
entries of every supplied filter list are matched as filesystem globs. -/
theorem c4_glob_filtering_counterexample :
    parse_keep ["gcp_*"] [] (some "gcp_key") = false
    ∧ fnmatch "gcp_key" "gcp_*" = true := by
  exact ⟨rfl, rfl⟩

/-- C4 (amended): the two filter implementations differ.  In `combine.py`
a pattern is kept iff (no include list was supplied, or its present `name`
matches an include-name glob, or its present `type` matches an
include-type glob) and its `type` matches no exclude-type glob and its
`name` matches no exclude-name glob, where entries are filesystem-style
globs — e.g. the include-type entry `"gcp_*"` keeps a pattern of type
`"gcp_key"` (third conjunct).  In `test.py`'s `parse_patterns`, however,
include/exclude filtering is literal string membership of the pattern's
`type` (second conjunct), so `"gcp_*"` does not keep `"gcp_key"` there. -/
theorem c4_glob_filtering_amended :
    (∀ (iN iT eN eT : Option (List String)) (p : CombineEntry),
      combine_include iN iT eN eT p =
        ((!(iN.isSome || iT.isSome) || globOptMatch p.name iN || globOptMatch p.type iT) &&
         !(globOptMatch p.type eT) && !(globOptMatch p.name eN)))
    ∧ (∀ (includeList excludeList : List String) (t : Option String),
        parse_keep includeList excludeList t =
          ((includeList.isEmpty || optMem t includeList) &&
           (excludeList.isEmpty || !(optMem t excludeList))))
    ∧ combine_include none (some ["gcp_*"]) none none
        { name := some "GCP key", type := some "gcp_key" } = true
    ∧ fnmatch "gcp_key" "gcp_*" = true := by
  refine ⟨?_, ?_, rfl, rfl⟩
  · intro iN iT eN eT p
    unfold combine_include
    cases h0 : (iN.isSome || iT.isSome) <;>
      cases h1 : globOptMatch p.name iN <;>
      cases h2 : globOptMatch p.type iT <;>
      cases h3 : globOptMatch p.type eT <;>
      cases h4 : globOptMatch p.name eN <;>
      simp [h0, h1, h2, h3, h4]
  · intro includeList excludeList t
    cases includeList <;> cases excludeList <;> simp [parse_keep]

/-- C2 witness: the reconciler theorem applied to a concrete non-empty
expectation list whose single triple is matched by the single observed
result, and to a concrete pattern list for the empty-`expected`
conjunct. -/
theorem c2_reconciler_verdict_witness :
    pattern_reconcile_ok
        [{ name := some "a.txt", start_offset := some 6, end_offset := some 38 }]
        [{ file := { name := "a.txt", start_offset := 6, end_offset := 38 },
           groups := Parts.utf8 [] [] [] }] = true
    ∧ test_patterns_ret
        (([{ name := some "info", type := some "info_t", description := none,
             start := none, pattern := "x", stop := none, additional_matches := [],
             additional_not_matches := [], expected := [] }] :
            List TPattern).filter (fun p => !p.expected.isEmpty)) [] true =
      test_patterns_ret
        [{ name := some "info", type := some "info_t", description := none,
           start := none, pattern := "x", stop := none, additional_matches := [],
           additional_not_matches := [], expected := [] }] [] true :=
  ⟨((c2_reconciler_verdict
      [{ name := some "a.txt", start_offset := some 6, end_offset := some 38 }]
      [{ file := { name := "a.txt", start_offset := 6, end_offset := 38 },
         groups := Parts.utf8 [] [] [] }] (by simp)).1).mpr (by decide),
   (c2_reconciler_verdict
      [{ name := some "a.txt", start_offset := some 6, end_offset := some 38 }]
      [{ file := { name := "a.txt", start_offset := 6, end_offset := 38 },
         groups := Parts.utf8 [] [] [] }] (by simp)).2
     [{ name := some "info", type := some "info_t", description := none,
        start := none, pattern := "x", stop := none, additional_matches := [],
        additional_not_matches := [], expected := [] }] [] true⟩

/-- C8 counterexample: a pattern declaration whose regex `pattern` string
is whitespace-only (empty after trim) is *not* rejected by either loader:
`PatternsConfig` loads it (with the empty pattern string), and `test.py`'s
`Pattern.__init__` accepts it too — contradicting the claim that loading
rejects it with a config error and that no loaded pattern has an empty
after-trim pattern string. -/
theorem c8_empty_pattern_counterexample :
    patternsConfig_patterns [rawEmptyPattern] =
      [{ name := "empty", description := none, experimental := false,
         regex := { pattern := "", version := some "v0.1", start := none, stop := none,
                    additional_match := [], additional_not_match := [] },
         expected := [], type := some "empty_t", comments := [] }]
    ∧ mkTPattern rawEmptyPattern =
      Except.ok { name := some "empty", type := some "empty_t", description := none,
                  start := none, pattern := "", stop := none, additional_matches := [],
                  additional_not_matches := [], expected := [] } := by
  exact ⟨rfl, rfl⟩

/-- C8 (amended): neither loader validates pattern non-emptiness.  Any
entry with a `name` and a regex `pattern` string (and no `expected`
entries to validate) is loaded by `patterns.py` with its pattern merely
stripped via the truthiness-guarded `strip()`, and by `test.py` with its
pattern stripped unconditionally — in particular a whitespace-only
pattern loads as the empty string in both. -/
theorem c8_empty_pattern_amended (r : RawPattern) (rx : RawRegex) (nm p : String)
    (hn : r.name = some nm) (hrx : r.regex = some rx) (hp : rx.pattern = some p)
    (hexp : r.expected = []) :
    (∃ pp : PPattern, mkPattern r = Except.ok pp ∧ pp.regex.pattern = stripIfTruthy p)
    ∧ (∃ t : TPattern, mkTPattern r = Except.ok t ∧ t.pattern = pyStrip p) := by
  constructor
  · refine ⟨{ name := nm, description := r.description, experimental := r.experimental,
              regex := { pattern := stripIfTruthy p,
                         version := some (if startsWithV (rx.version.getD "0.1")
                                          then rx.version.getD "0.1"
                                          else "v" ++ rx.version.getD "0.1"),
                         start := rx.start.map stripIfTruthy,
                         stop := rx.stop.map stripIfTruthy,
                         additional_match := rx.additional_match,
                         additional_not_match := rx.additional_not_match },
              expected := [], type := r.type, comments := r.comments }, ?_, rfl⟩
    unfold mkPattern
    rw [hn, hrx, hexp]
    unfold mkRegex
    simp only []
    rw [hp]
    rfl
  · refine ⟨{ name := r.name.map pyStrip, type := r.type.map pyStrip,
              description := r.description.map pyStrip,
              start := rx.start.map pyStrip, pattern := pyStrip p,
              stop := rx.stop.map pyStrip,
              additional_matches := rx.additional_match.map pyStrip,
              additional_not_matches := rx.additional_not_match.map pyStrip,
              expected := r.expected }, ?_, rfl⟩
    unfold mkTPattern
    rw [hrx]
    simp only []
    rw [hp]

/-- C8 witness: the amended theorem applied to the whitespace-only
fixture. -/
theorem c8_empty_pattern_witness :
    (∃ pp : PPattern, mkPattern rawEmptyPattern = Except.ok pp ∧
      pp.regex.pattern = stripIfTruthy "   ")
    ∧ (∃ t : TPattern, mkTPattern rawEmptyPattern = Except.ok t ∧
      t.pattern = pyStrip "   ") :=
  c8_empty_pattern_amended rawEmptyPattern
    { pattern := some "   ", version := none, start := none, stop := none,
      additional_match := [], additional_not_match := [] }
    "empty" "   " rfl rfl rfl rfl

/-- C9 counterexample: in `test.py`'s `parse_patterns` there is no error
isolation.  With a malformed middle entry (missing its `regex` key), the
whole parse raises, and the well-formed patterns around it are not loaded
— contradicting the claim that the loader skips the offending pattern and
loads every other well-formed one without aborting the run. -/
theorem c9_config_error_counterexample :
    parse_patterns [] [] [rawGood1, rawNoRegex, rawGood2] = Except.error "KeyError: regex"
    ∧ mkTPattern rawGood1 =
      Except.ok { name := some "AWS key", type := some "aws_key", description := none,
                  start := none, pattern := "[A-Z0-9]{20}", stop := none,
                  additional_matches := [], additional_not_matches := [],
                  expected := [{ name := some "a.txt", start_offset := some 0,
                                 end_offset := some 20 }] } := by
  exact ⟨rfl, rfl⟩

/-- C9 (amended): the two loaders differ.  `patterns.py`'s
`PatternsConfig` isolates config errors: a malformed entry (for example
one with the invalid `end_offset = 0`, or a missing required key) is
logged and skipped and every other well-formed pattern of the same file
is still loaded, with loading never aborting (first conjunct).  `test.py`'s
`parse_patterns`, by contrast, has no such isolation: a kept entry missing
its `regex` key aborts the whole parse with an error (second conjunct). -/
theorem c9_config_error_amended :
    (∀ (xs ys : List RawPattern) (r : RawPattern) (msg : String),
      mkPattern r = Except.error msg →
        patternsConfig_patterns (xs ++ r :: ys) =
          patternsConfig_patterns xs ++ patternsConfig_patterns ys)
    ∧ (∀ (rest : List RawPattern) (r : RawPattern), r.regex = none →
        parse_patterns [] [] (r :: rest) = Except.error "KeyError: regex") := by
  constructor
  · intro xs ys r msg h
    unfold patternsConfig_patterns
    rw [List.filterMap_append, List.filterMap_cons]
    rw [h]
    rfl
  · intro rest r h
    unfold parse_patterns
    have hkeep : parse_keep [] [] r.type = true := rfl
    rw [if_pos hkeep]
    unfold mkTPattern
    rw [h]
    rfl

/-- C9 witness: the amended theorem applied to a concrete file whose
middle entry carries the invalid `end_offset = 0` (for the `patterns.py`
conjunct) and to the entry missing its `regex` key (for the
`parse_patterns` conjunct). -/
theorem c9_config_error_witness :
    patternsConfig_patterns [rawGood1, rawBadOffset, rawGood2] =
      patternsConfig_patterns [rawGood1] ++ patternsConfig_patterns [rawGood2]
    ∧ parse_patterns [] [] [rawNoRegex] = Except.error "KeyError: regex" :=
  ⟨c9_config_error_amended.1 [rawGood1] [rawGood2] rawBadOffset
      "The expected end offset should be positive, or -1 (the end of the data)" rfl,
   c9_config_error_amended.2 [] rawNoRegex rfl⟩

/-- C1 counterexample: the offsets recorded in the Result Store are the
*adjusted* offsets (`start_offset + len(captured.start)`,
`end_offset - len(captured.end)`).  For the 3-byte buffer `b"x1y"`
(`[120, 49, 121]`) matched in full by hyperscan at `(0, 3)` with captures
`x`/`1`/`y`, the record carries offsets `(1, 2)`; the byte slice
`content[1:2]` is just the body capture `[49]`, not the concatenation of
the three captures, and `start_offset + len(captured.start) ≤
end_offset - len(captured.end)` fails (`2 ≤ 1`). -/
theorem c1_offset_closure_counterexample :
    pcre_result_match (fun _ _ => true)
        { name := some "hex", type := some "hex_t", description := none, start := none,
          pattern := "[0-9]", stop := none, additional_matches := [],
          additional_not_matches := [], expected := [] }
        "sample.txt" 0 3 (some { gstart := [120], gpattern := [49], gend := [121] })
        true false =
      some { file := { name := "sample.txt", start_offset := 1, end_offset := 2 },
             groups := Parts.utf8 [120] [49] [121] }
    ∧ pySlice [120, 49, 121] 1 2 ≠ [120] ++ [49] ++ [121]
    ∧ ¬((1 : Int) + ([120] : Bytes).length ≤ (2 : Int) - ([121] : Bytes).length) := by
  refine ⟨rfl, by decide, by decide⟩

/-- C1 (amended): for every match recorded while scanning `content`, with
hyperscan callback offsets `s`, `e` and PCRE captures anchored at the
start of the slice `content[s:e]` (hypothesis `hm`: the concatenated
captures are an initial segment of that slice), the recorded offsets are
the raw offsets adjusted inward by the byte lengths of the `start` and
`end` captures; recorded `start_offset ≤ end_offset`; the concatenation
`captured.start + captured.pattern + captured.end` equals the byte slice
of `content` starting at the *raw* offset `s` of the concatenation's
length; and `captured.pattern` equals the byte slice of length
`len(captured.pattern)` starting at the recorded `start_offset`. -/
theorem c1_offset_closure_amended
    (rmatch : String → Bytes → Bool) (pat : TPattern) (pathName : String)
    (content : Bytes) (s e : Nat) (pm : PcreMatch) (noAdd : Bool) (rec : StoredRec)
    (hse : s ≤ e) (he : e ≤ content.length)
    (hm : ∃ tail, pySlice content s e = pm.gstart ++ pm.gpattern ++ pm.gend ++ tail)
    (hrun : pcre_result_match rmatch pat pathName s e (some pm) true noAdd = some rec) :
    rec.file.start_offset = (s : Int) + pm.gstart.length ∧
    rec.file.end_offset = (e : Int) - pm.gend.length ∧
    rec.file.start_offset ≤ rec.file.end_offset ∧
    pySlice content s (s + (pm.gstart.length + pm.gpattern.length + pm.gend.length)) =
      pm.gstart ++ pm.gpattern ++ pm.gend ∧
    pySlice content (s + pm.gstart.length) (s + pm.gstart.length + pm.gpattern.length) =
      pm.gpattern := by
  obtain ⟨tail, hm⟩ := hm
  have hrec := pcre_result_match_eq_some rmatch pat pathName s e pm true noAdd rec hrun
  unfold pySlice at hm
  have hdlen : (content.drop s).length = content.length - s := List.length_drop s content
  have hsum : pm.gstart.length + pm.gpattern.length + pm.gend.length + tail.length =
      e - s := by
    have h2 := congrArg List.length hm
    simp only [List.length_take, List.length_append, hdlen] at h2
    omega
  have hm2 : (content.drop s).take (e - s) =
      (pm.gstart ++ (pm.gpattern ++ pm.gend)) ++ tail := by
    rw [hm]
    simp [List.append_assoc]
  have h4 := take_of_take_eq_append (content.drop s)
    (pm.gstart ++ (pm.gpattern ++ pm.gend)) tail (e - s) hm2
  simp only [List.length_append] at h4
  have hmid0 : ((content.drop s).take
      (pm.gstart.length + (pm.gpattern.length + pm.gend.length))).drop pm.gstart.length =
      (pm.gstart ++ (pm.gpattern ++ pm.gend)).drop pm.gstart.length := by rw [h4]
  rw [List.drop_take, List.drop_left] at hmid0
  have hadd : pm.gstart.length + (pm.gpattern.length + pm.gend.length) -
      pm.gstart.length = pm.gpattern.length + pm.gend.length := by omega
  rw [hadd] at hmid0
  have h5 := take_of_take_eq_append ((content.drop s).drop pm.gstart.length)
    pm.gpattern pm.gend (pm.gpattern.length + pm.gend.length) hmid0
  refine ⟨by rw [hrec], by rw [hrec], ?_, ?_, ?_⟩
  · rw [hrec]
    simp only []
    omega
  · unfold pySlice
    have hL : s + (pm.gstart.length + pm.gpattern.length + pm.gend.length) - s =
        pm.gstart.length + pm.gpattern.length + pm.gend.length := by omega
    rw [hL]
    have hL2 : pm.gstart.length + pm.gpattern.length + pm.gend.length =
        pm.gstart.length + (pm.gpattern.length + pm.gend.length) := by omega
    rw [hL2, h4]
    simp [List.append_assoc]
  · unfold pySlice
    have hL3 : s + pm.gstart.length + pm.gpattern.length - (s + pm.gstart.length) =
        pm.gpattern.length := by omega
    rw [hL3]
    have hdd : content.drop (s + pm.gstart.length) =
        (content.drop s).drop pm.gstart.length := by
      rw [List.drop_drop]
    rw [hdd, h5]

/-- C1 witness: the amended theorem applied to the concrete buffer
`[120, 49, 121]` scanned at raw offsets `(0, 3)` with captures
`[120]`/`[49]`/`[121]`. -/
theorem c1_offset_closure_witness :
    pySlice [120, 49, 121] 0 (0 + (1 + 1 + 1)) = [120] ++ [49] ++ [121]
    ∧ pySlice [120, 49, 121] (0 + 1) (0 + 1 + 1) = [49] :=
  ⟨(c1_offset_closure_amended (fun _ _ => true)
      { name := some "hex", type := some "hex_t", description := none, start := none,
        pattern := "[0-9]", stop := none, additional_matches := [],
        additional_not_matches := [], expected := [] }
      "sample.txt" [120, 49, 121] 0 3
      { gstart := [120], gpattern := [49], gend := [121] } false
      { file := { name := "sample.txt", start_offset := 1, end_offset := 2 },
        groups := Parts.utf8 [120] [49] [121] }
      (by decide) (by decide) ⟨[], rfl⟩ rfl).2.2.2.1,
   (c1_offset_closure_amended (fun _ _ => true)
      { name := some "hex", type := some "hex_t", description := none, start := none,
        pattern := "[0-9]", stop := none, additional_matches := [],
        additional_not_matches := [], expected := [] }
      "sample.txt" [120, 49, 121] 0 3
      { gstart := [120], gpattern := [49], gend := [121] } false
      { file := { name := "sample.txt", start_offset := 1, end_offset := 2 },
        groups := Parts.utf8 [120] [49] [121] }
      (by decide) (by decide) ⟨[], rfl⟩ rfl).2.2.2.2⟩

end SecretScanning
